import Mathlib

/-!
Shallow embedding of the identity-linking and presence-automation core of
`src/main.py` (a Discord bot linking Twitch identities and controlling a
single Spotify account's playback).

The SQLite database is modelled as an explicit `DB` value; the wall clock
(`time.time()`) and values produced by external collaborators (OAuth token
responses, playback state, HTTP outcomes) are passed as explicit arguments.
Python truthiness of optional strings/integers (`if not x`) is modelled by
explicit `pyTruthy` helpers, since `""`, `0` and `None` are all falsy.
-/

namespace DiscordBot

/-- Python truthiness for `str | None`: `None` and `""` are falsy. -/
def pyTruthyStr : Option String → Bool
  | none => false
  | some s => s ≠ ""

/-- Python truthiness for `int | None`: `None` and `0` are falsy. -/
def pyTruthyInt : Option Int → Bool
  | none => false
  | some n => n ≠ 0

/-- Python `a or b` on `str | None` operands (used for
`rt = refresh_token or existing_rt` in `spotify_upsert_tokens`). -/
def pyOrStr (a b : Option String) : Option String :=
  if pyTruthyStr a then a else b

/-- A row of the `twitch_map` table (primary key `discord_user_id`). -/
structure TwitchMapRow where
  discord_user_id : Int
  twitch_display_name : String
  twitch_login : String
  twitch_user_id : String
  updated_at : Int
deriving Repr, DecidableEq

/-- A row of the `verify_state` table (primary key `state`). -/
structure VerifyStateRow where
  state : String
  discord_user_id : Int
  expires_at : Int
deriving Repr, DecidableEq

/-- The singleton `spotify_tokens` row (`id = 1`); the three token columns
are nullable in the schema. -/
structure SpotifyTokensRow where
  access_token : Option String
  refresh_token : Option String
  expires_at : Option Int
  updated_at : Int
deriving Repr, DecidableEq

/-- The singleton `spotify_runtime` row (`id = 1`), seeded by `db_init` with
`(paused_by_bot, last_action_at, last_member_count) = (0, 0, -1)`. -/
structure SpotifyRuntimeRow where
  paused_by_bot : Bool
  last_action_at : Int
  last_member_count : Int
deriving Repr, DecidableEq

/-- The whole SQLite database: two keyed tables and two singleton rows.
`spotify_tokens` may be absent (no row yet); `spotify_runtime` is always
present because `db_init` seeds it with `INSERT OR IGNORE`. -/
structure DB where
  twitch_map : List TwitchMapRow
  verify_state : List VerifyStateRow
  spotify_tokens : Option SpotifyTokensRow
  spotify_runtime : SpotifyRuntimeRow
deriving Repr, DecidableEq

/-- The freshly initialised database produced by `db_init`. -/
def db_init : DB :=
  { twitch_map := []
    verify_state := []
    spotify_tokens := none
    spotify_runtime := { paused_by_bot := false, last_action_at := 0, last_member_count := -1 } }

/-- Embeds `has_mapping`: `SELECT 1 FROM twitch_map WHERE discord_user_id=?` is non-empty. -/
def has_mapping (db : DB) (discord_user_id : Int) : Bool :=
  db.twitch_map.any (fun r => r.discord_user_id == discord_user_id)

/-- Embeds `upsert_mapping`: `INSERT ... ON CONFLICT(discord_user_id) DO UPDATE SET`
all non-key columns.  `now` stands for `int(time.time())`. -/
def upsert_mapping (db : DB) (now discord_user_id : Int)
    (display_name login twitch_user_id : String) : DB :=
  if db.twitch_map.any (fun r => r.discord_user_id == discord_user_id) then
    { db with twitch_map := db.twitch_map.map (fun r =>
        if r.discord_user_id == discord_user_id then
          { r with twitch_display_name := display_name
                   twitch_login := login
                   twitch_user_id := twitch_user_id
                   updated_at := now }
        else r) }
  else
    { db with twitch_map := db.twitch_map ++
        [{ discord_user_id := discord_user_id
           twitch_display_name := display_name
           twitch_login := login
           twitch_user_id := twitch_user_id
           updated_at := now }] }

/-- Embeds `create_state`: inserts `(state, discord_user_id, now + ttl_sec)` into
`verify_state`.  The random token produced by `secrets.token_urlsafe(24)` is
passed in as `state`; Python's default `ttl_sec` is `15 * 60`. -/
def create_state (db : DB) (state : String) (discord_user_id now ttl_sec : Int) : DB :=
  { db with verify_state := db.verify_state ++
      [{ state := state, discord_user_id := discord_user_id, expires_at := now + ttl_sec }] }

/-- Embeds `consume_state`: looks up the row for `state`; if absent returns `None`;
otherwise deletes the row (regardless of expiry) and returns the stored
`discord_user_id` when `expires_at >= now`, else `None`. -/
def consume_state (db : DB) (state : String) (now : Int) : Option Int × DB :=
  match db.verify_state.find? (fun r => r.state == state) with
  | none => (none, db)
  | some row =>
    let db' : DB := { db with verify_state := db.verify_state.filter (fun r => ¬ r.state == state) }
    (if row.expires_at ≥ now then some row.discord_user_id else none, db')

/-- Embeds `spotify_get_tokens`: reads the singleton `spotify_tokens` row, returning
`(None, None, None)` when no row exists. -/
def spotify_get_tokens (db : DB) : Option String × Option String × Option Int :=
  match db.spotify_tokens with
  | none => (none, none, none)
  | some r => (r.access_token, r.refresh_token, r.expires_at)

/-- Embeds `spotify_upsert_tokens`: stores `expires_at = now + expires_in - 15`
(15-second safety buffer) and keeps the existing `refresh_token` when the
caller passes a falsy one (`rt = refresh_token or existing_rt`). -/
def spotify_upsert_tokens (db : DB) (now : Int) (access_token : String)
    (refresh_token : Option String) (expires_in : Int) : DB :=
  let expires_at := now + expires_in - 15
  let existing_rt : Option String :=
    match db.spotify_tokens with
    | none => none
    | some r => r.refresh_token
  let rt := pyOrStr refresh_token existing_rt
  let newRow : SpotifyTokensRow :=
    { access_token := some access_token
      refresh_token := rt
      expires_at := some expires_at
      updated_at := now }
  { db with spotify_tokens := some newRow }

/-- Embeds `spotify_get_runtime`: reads the singleton runtime row. -/
def spotify_get_runtime (db : DB) : Bool × Int × Int :=
  (db.spotify_runtime.paused_by_bot, db.spotify_runtime.last_action_at,
   db.spotify_runtime.last_member_count)

/-- Embeds `spotify_set_runtime`: each keyword argument that is not `None` updates
the corresponding column of the singleton runtime row. -/
def spotify_set_runtime (db : DB) (paused_by_bot : Option Bool)
    (last_action_at : Option Int) (last_member_count : Option Int) : DB :=
  let rt := db.spotify_runtime
  let rt := match paused_by_bot with
    | some b => { rt with paused_by_bot := b }
    | none => rt
  let rt := match last_action_at with
    | some t => { rt with last_action_at := t }
    | none => rt
  let rt := match last_member_count with
    | some c => { rt with last_member_count := c }
    | none => rt
  { db with spotify_runtime := rt }

/-- A successful JSON body from Spotify's token endpoint for the
`refresh_token` grant: `access_token` is required (`js["access_token"]`),
`refresh_token` "may be absent" (`js.get("refresh_token")`), and
`expires_in` defaults to 3600 (`js.get("expires_in", 3600)`). -/
structure RefreshResponse where
  access_token : String
  refresh_token : Option String
  expires_in : Option Int
deriving Repr, DecidableEq

/-- Embeds `spotify_get_access_token`: returns `None` when no (truthy)
refresh token is stored; returns the cached access token when it is truthy
and `expires_at` is truthy and `expires_at > now`; otherwise calls
`spotify_refresh` (whose successful JSON body is the `resp` argument),
persists via `spotify_upsert_tokens`, and returns the new access token.
The third component records whether the refresh grant was performed. -/
def spotify_get_access_token (db : DB) (now : Int) (resp : RefreshResponse) :
    Option String × DB × Bool :=
  let t := spotify_get_tokens db
  let access_token := t.1
  let refresh_token := t.2.1
  let expires_at := t.2.2
  if ¬ pyTruthyStr refresh_token then
    (none, db, false)
  else if pyTruthyStr access_token ∧ pyTruthyInt expires_at ∧ expires_at.getD 0 > now then
    (access_token, db, false)
  else
    let new_access := resp.access_token
    let new_refresh := resp.refresh_token
    let expires_in := (resp.expires_in).getD 3600
    (some new_access, spotify_upsert_tokens db now new_access new_refresh expires_in, true)

/-- Configuration values read from the environment that the automation
controller consults (`SPOTIFY_PAUSE_THRESHOLD`, `SPOTIFY_DEBOUNCE_SECONDS`). -/
structure Config where
  SPOTIFY_PAUSE_THRESHOLD : Int
  SPOTIFY_DEBOUNCE_SECONDS : Int
deriving Repr, DecidableEq

/-- The JSON body returned by `GET /v1/me/player` when it returns 200; the
`is_playing` key may be absent (`playback.get("is_playing")`). -/
structure PlaybackState where
  is_playing : Option Bool
deriving Repr, DecidableEq

/-- Embeds `bool(playback and playback.get("is_playing"))`: `spotify_get_playback`
returns `None` on 204 / non-200, and a missing key is falsy. -/
def playback_is_playing : Option PlaybackState → Bool
  | none => false
  | some p => (p.is_playing).getD false

/-- External-world inputs the controller would observe if it reached the
corresponding network call: the refresh-grant body `spotify_refresh` would
return, the playback state `spotify_get_playback` would return, and whether
`spotify_pause` would report success (HTTP 204/202). -/
structure AutoPauseEnv where
  refresh_resp : RefreshResponse
  playback : Option PlaybackState
  pause_ok : Bool
deriving Repr, DecidableEq

/-- A playback command sent to the provider (`PUT /pause` or `PUT /play`). -/
inductive PlayerCommand where
  | pause
  | play
deriving Repr, DecidableEq

/-- Embeds `_handle_spotify_auto_pause` (the `bot.http_session` present case):
returns the database after the event together with the list of playback
commands issued while handling it. -/
def handle_spotify_auto_pause (cfg : Config) (env : AutoPauseEnv) (db : DB)
    (now member_count : Int) : DB × List PlayerCommand :=
  let rt := spotify_get_runtime db
  let last_action_at := rt.2.1
  let last_member_count := rt.2.2
  if member_count == last_member_count ∧ now - last_action_at < cfg.SPOTIFY_DEBOUNCE_SECONDS then
    (db, [])
  else if now - last_action_at < cfg.SPOTIFY_DEBOUNCE_SECONDS then
    (spotify_set_runtime db none none (some member_count), [])
  else
    let db1 := spotify_set_runtime db none none (some member_count)
    let r := spotify_get_access_token db1 now env.refresh_resp
    if ¬ pyTruthyStr r.1 then
      (r.2.1, [])
    else
      let threshold := if cfg.SPOTIFY_PAUSE_THRESHOLD > 0 then cfg.SPOTIFY_PAUSE_THRESHOLD else 2
      if member_count ≥ threshold then
        if playback_is_playing env.playback then
          if env.pause_ok then
            (spotify_set_runtime (r.2.1) (some true) (some now) none, [PlayerCommand.pause])
          else
            (r.2.1, [PlayerCommand.pause])
        else
          (r.2.1, [])
      else
        (r.2.1, [])

/-- Query parameters of an OAuth callback request, each possibly absent. -/
structure CallbackQuery where
  error : Option String
  error_description : Option String
  code : Option String
  state : Option String
deriving Repr, DecidableEq

/-- Verified external identity returned by `twitch_get_user` (fields
`id`, `login`, `display_name` of the first record). -/
structure TwitchUser where
  id : String
  login : String
  display_name : String
deriving Repr, DecidableEq

/-- Outcome of `member.edit(nick=...)` inside `try_set_nick`. -/
inductive NickOutcome where
  | ok
  | forbidden
  | httpError (msg : String)
deriving Repr, DecidableEq

/-- Embeds `try_set_nick`: converts the Discord edit outcome into the
structured `(ok, reason)` pair the callback renders. -/
def try_set_nick (outcome : NickOutcome) : Bool × String :=
  match outcome with
  | NickOutcome.ok => (true, "ok")
  | NickOutcome.forbidden => (false, "Forbidden (owner/admin or role hierarchy/permission)")
  | NickOutcome.httpError e => (false, "HTTPException: " ++ e)

/-- External-world inputs of the Twitch callback's success path: the identity
`twitch_get_user` returns after a successful code exchange, and the outcome
of the nickname edit. -/
structure TwitchCbEnv where
  user : TwitchUser
  nick_outcome : NickOutcome
deriving Repr, DecidableEq

/-- The distinct responses `twitch_callback` can render. -/
inductive TwitchCbResponse where
  | cancelled (desc : String)
  | badRequestMissing
  | invalidOrExpired
  | verifiedOk (display : String)
  | verifiedNoNick (display : String) (why : String)
deriving Repr, DecidableEq

/-- Embeds the `twitch_callback` HTTP handler (with the code exchange and
identity lookup succeeding, their results supplied by `env`): error param
short-circuits; missing `code`/`state` is a 400; a failed redemption renders
the invalid/expired page; otherwise the mapping is upserted and the nickname
edit attempted. -/
def twitch_callback (env : TwitchCbEnv) (db : DB) (now : Int) (q : CallbackQuery) :
    TwitchCbResponse × DB :=
  if pyTruthyStr q.error then
    (TwitchCbResponse.cancelled ((pyOrStr q.error_description (some "Cancelled.")).getD "Cancelled."), db)
  else if ¬ pyTruthyStr q.code ∨ ¬ pyTruthyStr q.state then
    (TwitchCbResponse.badRequestMissing, db)
  else
    let r := consume_state db (q.state.getD "") now
    if ¬ pyTruthyInt r.1 then
      (TwitchCbResponse.invalidOrExpired, r.2)
    else
      let discord_user_id := (r.1).getD 0
      let db2 := upsert_mapping r.2 now discord_user_id
        env.user.display_name env.user.login env.user.id
      let nick := try_set_nick env.nick_outcome
      if nick.1 then
        (TwitchCbResponse.verifiedOk env.user.display_name, db2)
      else
        (TwitchCbResponse.verifiedNoNick env.user.display_name nick.2, db2)

/-- A successful JSON body from Spotify's token endpoint for the
authorization-code grant, as read by `spotify_callback`
(`token_js["access_token"]`, `token_js.get("refresh_token")`,
`token_js.get("expires_in", 3600)`). -/
structure SpotifyTokenResponse where
  access_token : String
  refresh_token : Option String
  expires_in : Option Int
deriving Repr, DecidableEq

/-- The distinct responses `spotify_callback` can render. -/
inductive SpotifyCbResponse where
  | cancelled (desc : String)
  | badRequestMissing
  | invalidOrExpired
  | notAllowed
  | noRefreshToken
  | linked
deriving Repr, DecidableEq

/-- External network call performed by `spotify_callback`, recorded so that
theorems can state which paths perform the code exchange. -/
inductive ExternalCall where
  | exchange_code
deriving Repr, DecidableEq

/-- Embeds the `spotify_callback` HTTP handler (with the code exchange, when
reached, succeeding and returning `token_js`): error param short-circuits;
missing `code`/`state` is a 400; a failed redemption renders the
invalid/expired page; a configured `SPOTIFY_ALLOWED_USER_ID` different from
the redeemed subject is refused; a response without a refresh token renders
an error page; otherwise tokens are persisted and the runtime reset. -/
def spotify_callback (allowed_user_id : Int) (token_js : SpotifyTokenResponse)
    (db : DB) (now : Int) (q : CallbackQuery) :
    SpotifyCbResponse × DB × List ExternalCall :=
  if pyTruthyStr q.error then
    (SpotifyCbResponse.cancelled ((pyOrStr q.error_description (some "Cancelled.")).getD "Cancelled."), db, [])
  else if ¬ pyTruthyStr q.code ∨ ¬ pyTruthyStr q.state then
    (SpotifyCbResponse.badRequestMissing, db, [])
  else
    let r := consume_state db (q.state.getD "") now
    if ¬ pyTruthyInt r.1 then
      (SpotifyCbResponse.invalidOrExpired, r.2, [])
    else if allowed_user_id ≠ 0 ∧ (r.1).getD 0 ≠ allowed_user_id then
      (SpotifyCbResponse.notAllowed, r.2, [])
    else
      let access_token := token_js.access_token
      let refresh_token := token_js.refresh_token
      let expires_in := (token_js.expires_in).getD 3600
      if ¬ pyTruthyStr refresh_token then
        (SpotifyCbResponse.noRefreshToken, r.2, [ExternalCall.exchange_code])
      else
        let db2 := spotify_upsert_tokens r.2 now access_token refresh_token expires_in
        let db3 := spotify_set_runtime db2 (some false) (some 0) (some (-1))
        (SpotifyCbResponse.linked, db3, [ExternalCall.exchange_code])

/-- Number of `twitch_map` rows keyed by a given subject id. -/
def mapping_count (db : DB) (discord_user_id : Int) : Nat :=
  (db.twitch_map.filter (fun r => r.discord_user_id == discord_user_id)).length

/-! ### Helper lemmas -/

/-- A `verify_state` table containing no row keyed `s` yields no lookup hit. -/
lemma find?_verify_eq_none {l : List VerifyStateRow} {s : String}
    (h : ∀ r ∈ l, r.state ≠ s) :
    l.find? (fun r => r.state == s) = none := by
  rw [List.find?_eq_none]
  intro r hr
  simpa using h r hr

/-- Consuming a freshly created token: the lookup hits exactly the created
row, which is deleted, and the subject id is returned iff the token is not
yet expired. -/
lemma consume_state_create_fresh (db : DB) (s : String) (uid now0 ttl now : Int)
    (hfresh : ∀ r ∈ db.verify_state, r.state ≠ s) :
    consume_state (create_state db s uid now0 ttl) s now =
      (if now0 + ttl ≥ now then some uid else none, db) := by
  have hff : db.verify_state.filter (fun r => !decide (r.state = s)) = db.verify_state := by
    rw [List.filter_eq_self]
    intro r hr
    simp [hfresh r hr]
  simp [consume_state, create_state, List.find?_append, find?_verify_eq_none hfresh,
    List.filter_append, hff]

/-! ### Claims -/

/-- Claim C1: a link token redeemed before its `expires_at` returns the
subject id it was issued for, and a second redemption of the same token
returns invalid (`None`), the row having been deleted by the first
redemption. -/
theorem C1_token_redeemed_once (db : DB) (s : String) (uid now0 ttl now now2 : Int)
    (hfresh : ∀ r ∈ db.verify_state, r.state ≠ s)
    (hbefore : now < now0 + ttl) :
    (consume_state (create_state db s uid now0 ttl) s now).1 = some uid ∧
    (consume_state (consume_state (create_state db s uid now0 ttl) s now).2 s now2).1 = none := by
  rw [consume_state_create_fresh db s uid now0 ttl now hfresh]
  constructor
  · simp [le_of_lt hbefore]
  · simp [consume_state, find?_verify_eq_none hfresh]

/-- Concrete instantiation of C1: token "tok" issued for subject 42 at time 0
with ttl 900, redeemed at time 10 and again at time 20. -/
theorem C1_token_redeemed_once_witness :
    (∀ r ∈ db_init.verify_state, r.state ≠ "tok") ∧ ((10:Int) < 0 + 900) ∧
    ((consume_state (create_state db_init "tok" 42 0 900) "tok" 10).1 = some 42 ∧
     (consume_state (consume_state (create_state db_init "tok" 42 0 900) "tok" 10).2 "tok" 20).1 = none) :=
  ⟨by simp [db_init], by decide,
   C1_token_redeemed_once db_init "tok" 42 0 900 10 20 (by simp [db_init]) (by decide)⟩

/-- Claim C2: a link token redeemed after its `expires_at` returns invalid
(`None`) and its row is removed from the store, so a subsequent redemption
of the same token also returns invalid. -/
theorem C2_expired_token_deleted (db : DB) (s : String) (uid now0 ttl now now2 : Int)
    (hfresh : ∀ r ∈ db.verify_state, r.state ≠ s)
    (hexpired : now0 + ttl < now) :
    (consume_state (create_state db s uid now0 ttl) s now).1 = none ∧
    (∀ r ∈ (consume_state (create_state db s uid now0 ttl) s now).2.verify_state, r.state ≠ s) ∧
    (consume_state (consume_state (create_state db s uid now0 ttl) s now).2 s now2).1 = none := by
  rw [consume_state_create_fresh db s uid now0 ttl now hfresh]
  refine ⟨?_, ?_, ?_⟩
  · simp [not_le.mpr hexpired]
  · exact hfresh
  · simp [consume_state, find?_verify_eq_none hfresh]

/-- Concrete instantiation of C2: token "tok" issued for subject 42 at time 0
with ttl 900, redeemed at time 1000 (expired) and again at time 1001. -/
theorem C2_expired_token_deleted_witness :
    (∀ r ∈ db_init.verify_state, r.state ≠ "tok") ∧ ((0:Int) + 900 < 1000) ∧
    ((consume_state (create_state db_init "tok" 42 0 900) "tok" 1000).1 = none ∧
     (∀ r ∈ (consume_state (create_state db_init "tok" 42 0 900) "tok" 1000).2.verify_state,
        r.state ≠ "tok") ∧
     (consume_state (consume_state (create_state db_init "tok" 42 0 900) "tok" 1000).2 "tok" 1001).1 = none) :=
  ⟨by simp [db_init], by decide,
   C2_expired_token_deleted db_init "tok" 42 0 900 1000 1001 (by simp [db_init]) (by decide)⟩

/-- Claim C3: persisting a refresh-grant response without a refresh token
keeps the stored one and replaces access token and expiry; a response
carrying a (truthy) refresh token replaces it. -/
theorem C3_refresh_token_preserved (db : DB) (row : SpotifyTokensRow) (rt : String)
    (now : Int) (a : String) (e : Int)
    (hrow : db.spotify_tokens = some row)
    (hrt : row.refresh_token = some rt) :
    ((spotify_upsert_tokens db now a none e).spotify_tokens =
        some { access_token := some a, refresh_token := some rt,
               expires_at := some (now + e - 15), updated_at := now }) ∧
    (∀ rt' : String, rt' ≠ "" →
      (spotify_upsert_tokens db now a (some rt') e).spotify_tokens =
        some { access_token := some a, refresh_token := some rt',
               expires_at := some (now + e - 15), updated_at := now }) := by
  constructor
  · simp [spotify_upsert_tokens, pyOrStr, pyTruthyStr, hrow, hrt]
  · intro rt' h
    simp [spotify_upsert_tokens, pyOrStr, pyTruthyStr, hrow, hrt, h]

/-- Concrete instantiation of C3: stored credential with refresh token "R",
refreshed at time 50 with a response omitting the refresh token. -/
theorem C3_refresh_token_preserved_witness :
    (({ db_init with spotify_tokens := some ⟨some "A", some "R", some 1000, 0⟩ } : DB).spotify_tokens
        = some ⟨some "A", some "R", some 1000, 0⟩) ∧
    ((⟨some "A", some "R", some 1000, 0⟩ : SpotifyTokensRow).refresh_token = some "R") ∧
    (((spotify_upsert_tokens { db_init with spotify_tokens := some ⟨some "A", some "R", some 1000, 0⟩ }
          50 "A2" none 60).spotify_tokens =
        some { access_token := some "A2", refresh_token := some "R",
               expires_at := some (50 + 60 - 15), updated_at := 50 }) ∧
     (∀ rt' : String, rt' ≠ "" →
      (spotify_upsert_tokens { db_init with spotify_tokens := some ⟨some "A", some "R", some 1000, 0⟩ }
          50 "A2" (some rt') 60).spotify_tokens =
        some { access_token := some "A2", refresh_token := some rt',
               expires_at := some (50 + 60 - 15), updated_at := 50 })) :=
  ⟨rfl, rfl,
   C3_refresh_token_preserved _ _ "R" 50 "A2" 60 rfl rfl⟩

/-- Overwriting the non-key fields of the rows keyed `uid` does not change
how many rows any key filter selects. -/
lemma filter_key_map_overwrite (l : List TwitchMapRow) (uid v now : Int) (d lg t : String) :
    (List.filter (fun r => r.discord_user_id == v)
      (List.map (fun r => if r.discord_user_id == uid then
          { r with twitch_display_name := d, twitch_login := lg,
                   twitch_user_id := t, updated_at := now } else r) l)).length
    = (List.filter (fun r => r.discord_user_id == v) l).length := by
  rw [List.filter_map, List.length_map]
  have hpf : ((fun r => r.discord_user_id == v) ∘ (fun r : TwitchMapRow =>
      if r.discord_user_id == uid then
        { r with twitch_display_name := d, twitch_login := lg,
                 twitch_user_id := t, updated_at := now } else r))
      = (fun r => r.discord_user_id == v) := by
    funext r
    by_cases h : r.discord_user_id = uid <;> simp [h]
  rw [hpf]

/-- An absent mapping means the key filter selects nothing. -/
lemma mapping_count_eq_zero (db : DB) (uid : Int)
    (h : has_mapping db uid = false) : mapping_count db uid = 0 := by
  unfold has_mapping at h
  unfold mapping_count
  rw [List.length_eq_zero, List.filter_eq_nil_iff]
  exact List.any_eq_false.mp h

/-- A present mapping means the key filter selects at least one row. -/
lemma mapping_count_pos (db : DB) (uid : Int)
    (h : has_mapping db uid = true) : 1 ≤ mapping_count db uid := by
  unfold has_mapping at h
  obtain ⟨r, hr, hp⟩ := List.any_eq_true.mp h
  exact List.length_pos_of_mem (List.mem_filter.mpr ⟨hr, hp⟩)

/-- Claim C8: the identity-mapping store keeps at most one row per subject,
and re-verifying an already-linked subject overwrites the external-identity
fields of that single row rather than inserting a second one. -/
theorem C8_mapping_unique (db : DB) (now uid : Int) (d lg t : String)
    (hinv : ∀ v, mapping_count db v ≤ 1) :
    (∀ v, mapping_count (upsert_mapping db now uid d lg t) v ≤ 1) ∧
    (has_mapping db uid = true →
      mapping_count (upsert_mapping db now uid d lg t) uid = 1 ∧
      ∀ r ∈ (upsert_mapping db now uid d lg t).twitch_map,
        r.discord_user_id = uid →
          r = { discord_user_id := uid, twitch_display_name := d, twitch_login := lg,
                twitch_user_id := t, updated_at := now }) := by
  by_cases hm : db.twitch_map.any (fun r => r.discord_user_id == uid)
  · have hcount : ∀ v, mapping_count (upsert_mapping db now uid d lg t) v = mapping_count db v := by
      intro v
      unfold mapping_count upsert_mapping
      simp only [hm, if_true]
      exact filter_key_map_overwrite db.twitch_map uid v now d lg t
    refine ⟨fun v => (hcount v).le.trans (hinv v), fun _ => ⟨?_, ?_⟩⟩
    · have h1 := mapping_count_pos db uid hm
      have h2 := hinv uid
      have h3 := hcount uid
      omega
    · intro r hr hkey
      unfold upsert_mapping at hr
      simp only [hm, if_true] at hr
      obtain ⟨r0, hr0, hfr⟩ := List.mem_map.mp hr
      by_cases h0 : r0.discord_user_id = uid
      · simp only [h0, beq_self_eq_true, if_true] at hfr
        rw [← hfr]
      · rw [if_neg (by simp [h0])] at hfr
        rw [← hfr] at hkey
        exact absurd hkey h0
  · have hmf : has_mapping db uid = false := by
      unfold has_mapping
      simpa using hm
    have hmb : (db.twitch_map.any fun r => r.discord_user_id == uid) = false := by
      simpa using hm
    constructor
    · intro v
      unfold mapping_count upsert_mapping
      simp only [hmb]
      rw [if_neg Bool.false_ne_true]
      rw [List.filter_append]
      by_cases hv : v = uid
      · subst hv
        have h0 : db.twitch_map.filter (fun r => r.discord_user_id == v) = [] := by
          have h1 := mapping_count_eq_zero db v hmf
          unfold mapping_count at h1
          exact List.length_eq_zero.mp h1
        simp [h0]
      · have h' : ¬ uid = v := fun hh => hv hh.symm
        simp only [List.length_append]
        have h1 : List.filter (fun r => r.discord_user_id == v)
            [({ discord_user_id := uid, twitch_display_name := d, twitch_login := lg,
                twitch_user_id := t, updated_at := now } : TwitchMapRow)] = [] := by
          simp [h']
        rw [h1]
        simpa [mapping_count] using hinv v
    · intro habs
      rw [hmf] at habs
      exact absurd habs (by simp)

/-- Concrete instantiation of C8: a store holding one row for subject 42,
re-verified with new Twitch identity fields at time 99. -/
theorem C8_mapping_unique_witness :
    (∀ v, mapping_count { db_init with
        twitch_map := [⟨42, "Old", "old", "1", 0⟩] } v ≤ 1) ∧
    ((∀ v, mapping_count (upsert_mapping { db_init with
        twitch_map := [⟨42, "Old", "old", "1", 0⟩] } 99 42 "New" "new" "2") v ≤ 1) ∧
     (has_mapping { db_init with twitch_map := [⟨42, "Old", "old", "1", 0⟩] } 42 = true →
      mapping_count (upsert_mapping { db_init with
        twitch_map := [⟨42, "Old", "old", "1", 0⟩] } 99 42 "New" "new" "2") 42 = 1 ∧
      ∀ r ∈ (upsert_mapping { db_init with
        twitch_map := [⟨42, "Old", "old", "1", 0⟩] } 99 42 "New" "new" "2").twitch_map,
        r.discord_user_id = 42 →
          r = { discord_user_id := 42, twitch_display_name := "New", twitch_login := "new",
                twitch_user_id := "2", updated_at := 99 })) :=
  ⟨by
      intro v
      simpa [mapping_count] using
        List.length_filter_le (fun r => r.discord_user_id == v)
          [(⟨42, "Old", "old", "1", 0⟩ : TwitchMapRow)],
   C8_mapping_unique _ 99 42 "New" "new" "2"
     (by
      intro v
      simpa [mapping_count] using
        List.length_filter_le (fun r => r.discord_user_id == v)
          [(⟨42, "Old", "old", "1", 0⟩ : TwitchMapRow)])⟩

/-- The upserted subject is present afterwards. -/
lemma has_mapping_upsert_self (db : DB) (now uid : Int) (d lg t : String) :
    has_mapping (upsert_mapping db now uid d lg t) uid = true := by
  unfold has_mapping upsert_mapping
  by_cases hm : (db.twitch_map.any fun r => r.discord_user_id == uid) = true
  · simp only [hm, if_true, List.any_map]
    have hpf : ((fun r : TwitchMapRow => r.discord_user_id == uid) ∘ (fun r : TwitchMapRow =>
        if r.discord_user_id == uid then
          { r with twitch_display_name := d, twitch_login := lg,
                   twitch_user_id := t, updated_at := now } else r))
        = (fun r => r.discord_user_id == uid) := by
      funext r
      by_cases h : r.discord_user_id = uid <;> simp [h]
    rw [hpf]
    exact hm
  · have hmb : (db.twitch_map.any fun r => r.discord_user_id == uid) = false := by
      simpa using hm
    simp only [hmb]
    rw [if_neg Bool.false_ne_true]
    simp [List.any_append]

/-- Claim C7: once the token is redeemed (and code exchange and identity
lookup succeed), the identity mapping is persisted and `has_mapping` is true
for the subject no matter how the nickname edit turns out; a nickname
failure only changes the rendered page to the structured failure variant. -/
theorem C7_linkage_persists (env : TwitchCbEnv) (db : DB) (now : Int) (q : CallbackQuery) (uid : Int)
    (herr : pyTruthyStr q.error = false)
    (hcode : pyTruthyStr q.code = true)
    (hstate : pyTruthyStr q.state = true)
    (huid : (consume_state db (q.state.getD "") now).1 = some uid)
    (huid0 : uid ≠ 0) :
    has_mapping (twitch_callback env db now q).2 uid = true ∧
    ((twitch_callback env db now q).1 = TwitchCbResponse.verifiedOk env.user.display_name ∨
     ∃ why, (twitch_callback env db now q).1
        = TwitchCbResponse.verifiedNoNick env.user.display_name why) := by
  simp only [twitch_callback]
  rw [if_neg (by simp [herr])]
  rw [if_neg (by simp [hcode, hstate])]
  rw [huid]
  rw [if_neg (by simp [pyTruthyInt, huid0])]
  simp only [Option.getD_some]
  by_cases hn : (try_set_nick env.nick_outcome).1 = true
  · rw [if_pos hn]
    exact ⟨has_mapping_upsert_self _ _ _ _ _ _, Or.inl rfl⟩
  · rw [if_neg hn]
    exact ⟨has_mapping_upsert_self _ _ _ _ _ _, Or.inr ⟨_, rfl⟩⟩

/-- Concrete instantiation of C7: subject 42 redeems token "s" at time 10 and
the nickname edit is refused by Discord. -/
theorem C7_linkage_persists_witness :
    (pyTruthyStr (none : Option String) = false) ∧
    (pyTruthyStr (some "c") = true) ∧
    ((consume_state { db_init with verify_state := [⟨"s", 42, 900⟩] }
        ((some "s").getD "") 10).1 = some 42) ∧
    ((42:Int) ≠ 0) ∧
    (has_mapping (twitch_callback ⟨⟨"tid", "login", "Disp"⟩, NickOutcome.forbidden⟩
        { db_init with verify_state := [⟨"s", 42, 900⟩] } 10
        ⟨none, none, some "c", some "s"⟩).2 42 = true ∧
     ((twitch_callback ⟨⟨"tid", "login", "Disp"⟩, NickOutcome.forbidden⟩
        { db_init with verify_state := [⟨"s", 42, 900⟩] } 10
        ⟨none, none, some "c", some "s"⟩).1 = TwitchCbResponse.verifiedOk "Disp" ∨
      ∃ why, (twitch_callback ⟨⟨"tid", "login", "Disp"⟩, NickOutcome.forbidden⟩
        { db_init with verify_state := [⟨"s", 42, 900⟩] } 10
        ⟨none, none, some "c", some "s"⟩).1 = TwitchCbResponse.verifiedNoNick "Disp" why)) :=
  ⟨rfl, by decide, rfl, by decide,
   C7_linkage_persists ⟨⟨"tid", "login", "Disp"⟩, NickOutcome.forbidden⟩
     { db_init with verify_state := [⟨"s", 42, 900⟩] } 10
     ⟨none, none, some "c", some "s"⟩ 42 rfl (by decide) (by decide) rfl (by decide)⟩

/-- Updating the runtime row leaves the token row untouched. -/
lemma spotify_tokens_set_runtime (db : DB) (p : Option Bool) (a c : Option Int) :
    (spotify_set_runtime db p a c).spotify_tokens = db.spotify_tokens := rfl

/-- Reading the token row commutes with updating the runtime row. -/
lemma spotify_get_tokens_set_runtime (db : DB) (p : Option Bool) (a c : Option Int) :
    spotify_get_tokens (spotify_set_runtime db p a c) = spotify_get_tokens db := by
  unfold spotify_get_tokens
  rw [spotify_tokens_set_runtime]

/-- The access token resolved does not depend on runtime-row updates. -/
lemma get_access_token_fst_set_runtime (db : DB) (p : Option Bool) (a c : Option Int)
    (now : Int) (resp : RefreshResponse) :
    (spotify_get_access_token (spotify_set_runtime db p a c) now resp).1 =
    (spotify_get_access_token db now resp).1 := by
  simp only [spotify_get_access_token, spotify_get_tokens_set_runtime]
  split_ifs <;> rfl

/-- Resolving an access token never touches the runtime row. -/
lemma get_access_token_runtime (db : DB) (now : Int) (resp : RefreshResponse) :
    ((spotify_get_access_token db now resp).2.1).spotify_runtime = db.spotify_runtime := by
  simp only [spotify_get_access_token]
  split_ifs <;> rfl

/-- Claim C5: an occupancy event inside the debounce window issues no
playback command, yet the stored `last_member_count` equals the new
`member_count` afterwards. -/
theorem C5_debounced_event_records_count (cfg : Config) (env : AutoPauseEnv) (db : DB)
    (now member_count : Int)
    (hdeb : now - db.spotify_runtime.last_action_at < cfg.SPOTIFY_DEBOUNCE_SECONDS) :
    (handle_spotify_auto_pause cfg env db now member_count).2 = [] ∧
    (handle_spotify_auto_pause cfg env db now member_count).1.spotify_runtime.last_member_count
      = member_count := by
  simp only [handle_spotify_auto_pause, spotify_get_runtime]
  by_cases hc : (member_count == db.spotify_runtime.last_member_count) = true
  · rw [if_pos ⟨hc, hdeb⟩]
    exact ⟨rfl, (beq_iff_eq.mp hc).symm⟩
  · rw [if_neg (fun h => hc h.1), if_pos hdeb]
    exact ⟨rfl, rfl⟩

/-- Concrete instantiation of C5: a 2 → 3 occupancy change one second after a
pause action, inside the 2-second debounce window. -/
theorem C5_debounced_event_records_count_witness :
    ((100:Int) - ({ db_init with
        spotify_runtime := ⟨true, 99, 2⟩ } : DB).spotify_runtime.last_action_at
      < (⟨2, 2⟩ : Config).SPOTIFY_DEBOUNCE_SECONDS) ∧
    ((handle_spotify_auto_pause ⟨2, 2⟩ ⟨⟨"NA", none, none⟩, some ⟨some true⟩, true⟩
        { db_init with spotify_runtime := ⟨true, 99, 2⟩ } 100 3).2 = [] ∧
     (handle_spotify_auto_pause ⟨2, 2⟩ ⟨⟨"NA", none, none⟩, some ⟨some true⟩, true⟩
        { db_init with spotify_runtime := ⟨true, 99, 2⟩ } 100 3).1.spotify_runtime.last_member_count
      = 3) :=
  ⟨by decide,
   C5_debounced_event_records_count ⟨2, 2⟩ ⟨⟨"NA", none, none⟩, some ⟨some true⟩, true⟩
     { db_init with spotify_runtime := ⟨true, 99, 2⟩ } 100 3 (by decide)⟩

/-- Claim C4: on a non-debounced event with a linked credential and
`member_count` at or above the effective pause threshold, exactly one pause
command is issued when the provider reports the player playing (and on its
success `paused_by_bot` is set and `last_action_at` refreshed to `now`),
and no pause command is issued when it reports not playing or no playback
state is available. -/
theorem C4_pause_exactly_when_playing (cfg : Config) (env : AutoPauseEnv) (db : DB)
    (now member_count : Int)
    (hdeb : cfg.SPOTIFY_DEBOUNCE_SECONDS ≤ now - db.spotify_runtime.last_action_at)
    (hlinked : pyTruthyStr (spotify_get_access_token db now env.refresh_resp).1 = true)
    (hthr : member_count ≥ (if cfg.SPOTIFY_PAUSE_THRESHOLD > 0 then
        cfg.SPOTIFY_PAUSE_THRESHOLD else 2)) :
    (playback_is_playing env.playback = true →
      (handle_spotify_auto_pause cfg env db now member_count).2 = [PlayerCommand.pause] ∧
      (env.pause_ok = true →
        (handle_spotify_auto_pause cfg env db now member_count).1.spotify_runtime.paused_by_bot
          = true ∧
        (handle_spotify_auto_pause cfg env db now member_count).1.spotify_runtime.last_action_at
          = now)) ∧
    (playback_is_playing env.playback = false →
      (handle_spotify_auto_pause cfg env db now member_count).2 = []) := by
  have hlink1 : pyTruthyStr (spotify_get_access_token
      (spotify_set_runtime db none none (some member_count)) now env.refresh_resp).1 = true := by
    rw [get_access_token_fst_set_runtime]
    exact hlinked
  simp only [handle_spotify_auto_pause, spotify_get_runtime]
  rw [if_neg (fun h => absurd h.2 (not_lt.mpr hdeb))]
  rw [if_neg (not_lt.mpr hdeb)]
  rw [if_neg (by simp [hlink1])]
  rw [if_pos hthr]
  constructor
  · intro hplay
    rw [if_pos hplay]
    by_cases hok : env.pause_ok = true
    · rw [if_pos hok]
      exact ⟨rfl, fun _ => ⟨rfl, rfl⟩⟩
    · rw [if_neg hok]
      exact ⟨rfl, fun h => absurd h hok⟩
  · intro hnp
    rw [if_neg (by simp [hnp])]

/-- Concrete instantiation of C4: threshold 2, a linked credential with a
valid cached access token, two occupants, player reported playing, pause
succeeding, at time 100 with no prior action. -/
theorem C4_pause_exactly_when_playing_witness :
    ((⟨2, 2⟩ : Config).SPOTIFY_DEBOUNCE_SECONDS ≤ (100:Int) - ({ db_init with
        spotify_tokens := some ⟨some "A", some "R", some 1000, 0⟩ } : DB).spotify_runtime.last_action_at) ∧
    (pyTruthyStr (spotify_get_access_token { db_init with
        spotify_tokens := some ⟨some "A", some "R", some 1000, 0⟩ } 100 ⟨"NA", none, none⟩).1 = true) ∧
    ((2:Int) ≥ (if (⟨2, 2⟩ : Config).SPOTIFY_PAUSE_THRESHOLD > 0 then
        (⟨2, 2⟩ : Config).SPOTIFY_PAUSE_THRESHOLD else 2)) ∧
    ((playback_is_playing (some ⟨some true⟩) = true →
      (handle_spotify_auto_pause ⟨2, 2⟩ ⟨⟨"NA", none, none⟩, some ⟨some true⟩, true⟩
        { db_init with spotify_tokens := some ⟨some "A", some "R", some 1000, 0⟩ }
        100 2).2 = [PlayerCommand.pause] ∧
      (true = true →
        (handle_spotify_auto_pause ⟨2, 2⟩ ⟨⟨"NA", none, none⟩, some ⟨some true⟩, true⟩
          { db_init with spotify_tokens := some ⟨some "A", some "R", some 1000, 0⟩ }
          100 2).1.spotify_runtime.paused_by_bot = true ∧
        (handle_spotify_auto_pause ⟨2, 2⟩ ⟨⟨"NA", none, none⟩, some ⟨some true⟩, true⟩
          { db_init with spotify_tokens := some ⟨some "A", some "R", some 1000, 0⟩ }
          100 2).1.spotify_runtime.last_action_at = 100)) ∧
     (playback_is_playing (some ⟨some true⟩) = false →
      (handle_spotify_auto_pause ⟨2, 2⟩ ⟨⟨"NA", none, none⟩, some ⟨some true⟩, true⟩
        { db_init with spotify_tokens := some ⟨some "A", some "R", some 1000, 0⟩ }
        100 2).2 = [])) :=
  ⟨by decide, by decide, by decide,
   C4_pause_exactly_when_playing ⟨2, 2⟩ ⟨⟨"NA", none, none⟩, some ⟨some true⟩, true⟩
     { db_init with spotify_tokens := some ⟨some "A", some "R", some 1000, 0⟩ }
     100 2 (by decide) (by decide) (by decide)⟩

/-- Claim C9: with a stored credential whose recorded expiry is the
provider-reported expiry `t0 + e` minus the 15-second safety margin, the
cached access token is returned exactly when the current time is more than
15 seconds before the provider-reported expiry; otherwise the refresh grant
is performed, the new credential persisted, and the new access token
returned. -/
theorem C9_cached_iff_margin (db : DB) (row : SpotifyTokensRow) (a r : String)
    (t0 e now : Int) (resp : RefreshResponse)
    (hrow : db.spotify_tokens = some row)
    (ha : row.access_token = some a) (ha' : a ≠ "")
    (hr : row.refresh_token = some r) (hr' : r ≠ "")
    (hea : row.expires_at = some (t0 + e - 15))
    (hnow : 0 ≤ now) :
    (15 < t0 + e - now →
      spotify_get_access_token db now resp = (some a, db, false)) ∧
    (t0 + e - now ≤ 15 →
      spotify_get_access_token db now resp =
        (some resp.access_token,
         spotify_upsert_tokens db now resp.access_token resp.refresh_token
           ((resp.expires_in).getD 3600),
         true)) := by
  constructor
  · intro hfresh
    simp only [spotify_get_access_token, spotify_get_tokens, hrow, ha, hr, hea]
    rw [if_neg (by simp [pyTruthyStr, hr'])]
    rw [if_pos ⟨by simp [pyTruthyStr, ha'],
                by simp only [pyTruthyInt]; simp; omega,
                by simp only [Option.getD_some]; omega⟩]
  · intro hstale
    simp only [spotify_get_access_token, spotify_get_tokens, hrow, ha, hr, hea]
    rw [if_neg (by simp [pyTruthyStr, hr'])]
    rw [if_neg (by
      rintro ⟨-, -, h3⟩
      simp only [Option.getD_some] at h3
      omega)]

/-- Concrete instantiation of C9: credential stored at time 0 with
`expires_in = 1000` (recorded expiry 985), queried at time 100. -/
theorem C9_cached_iff_margin_witness :
    (({ db_init with spotify_tokens := some ⟨some "A", some "R", some (0 + 1000 - 15), 7⟩ } : DB).spotify_tokens
        = some ⟨some "A", some "R", some (0 + 1000 - 15), 7⟩) ∧
    ("A" ≠ "") ∧ ("R" ≠ "") ∧ ((0:Int) ≤ 100) ∧
    ((15 < (0:Int) + 1000 - 100 →
      spotify_get_access_token
        { db_init with spotify_tokens := some ⟨some "A", some "R", some (0 + 1000 - 15), 7⟩ }
        100 ⟨"NA", none, some 60⟩ =
        (some "A",
         { db_init with spotify_tokens := some ⟨some "A", some "R", some (0 + 1000 - 15), 7⟩ },
         false)) ∧
     ((0:Int) + 1000 - 100 ≤ 15 →
      spotify_get_access_token
        { db_init with spotify_tokens := some ⟨some "A", some "R", some (0 + 1000 - 15), 7⟩ }
        100 ⟨"NA", none, some 60⟩ =
        (some "NA",
         spotify_upsert_tokens
           { db_init with spotify_tokens := some ⟨some "A", some "R", some (0 + 1000 - 15), 7⟩ }
           100 "NA" none ((some (60:Int)).getD 3600),
         true))) :=
  ⟨rfl, by decide, by decide, by decide,
   C9_cached_iff_margin _ _ "A" "R" 0 1000 100 ⟨"NA", none, some 60⟩
     rfl rfl (by decide) rfl (by decide) rfl (by decide)⟩

/-- The second component of a redemption keeps the token row unchanged. -/
lemma consume_state_snd_tokens (db : DB) (s : String) (now : Int) :
    (consume_state db s now).2.spotify_tokens = db.spotify_tokens := by
  unfold consume_state
  cases h : db.verify_state.find? (fun r => r.state == s) <;> simp

/-- The second component of a redemption keeps the runtime row unchanged. -/
lemma consume_state_snd_runtime (db : DB) (s : String) (now : Int) :
    (consume_state db s now).2.spotify_runtime = db.spotify_runtime := by
  unfold consume_state
  cases h : db.verify_state.find? (fun r => r.state == s) <;> simp

/-- Claim C10: when an allowed subject id is configured and the redeemed
state belongs to a different subject, the Spotify callback renders the
refusal page, performs no code exchange, and leaves the stored playback
credential and the automation runtime unchanged, while the link token is
still consumed. -/
theorem C10_disallowed_subject (allowed : Int) (tok : SpotifyTokenResponse) (db : DB)
    (now : Int) (q : CallbackQuery) (uid : Int)
    (herr : pyTruthyStr q.error = false)
    (hcode : pyTruthyStr q.code = true)
    (hstate : pyTruthyStr q.state = true)
    (huid : (consume_state db (q.state.getD "") now).1 = some uid)
    (huid0 : uid ≠ 0)
    (hallowed : allowed ≠ 0) (hne : uid ≠ allowed) :
    spotify_callback allowed tok db now q =
      (SpotifyCbResponse.notAllowed, (consume_state db (q.state.getD "") now).2, []) ∧
    (spotify_callback allowed tok db now q).2.1.spotify_tokens = db.spotify_tokens ∧
    (spotify_callback allowed tok db now q).2.1.spotify_runtime = db.spotify_runtime := by
  have hmain : spotify_callback allowed tok db now q =
      (SpotifyCbResponse.notAllowed, (consume_state db (q.state.getD "") now).2, []) := by
    simp only [spotify_callback]
    rw [if_neg (by simp [herr])]
    rw [if_neg (by simp [hcode, hstate])]
    rw [huid]
    rw [if_neg (by simp [pyTruthyInt, huid0])]
    rw [if_pos ⟨hallowed, by simpa using hne⟩]
  refine ⟨hmain, ?_, ?_⟩
  · rw [hmain]
    exact consume_state_snd_tokens db (q.state.getD "") now
  · rw [hmain]
    exact consume_state_snd_runtime db (q.state.getD "") now

/-- Concrete instantiation of C10: allowed subject 7, token "s" redeemed by
subject 42 at time 10. -/
theorem C10_disallowed_subject_witness :
    (pyTruthyStr (none : Option String) = false) ∧
    (pyTruthyStr (some "c") = true) ∧
    ((consume_state { db_init with verify_state := [⟨"s", 42, 900⟩] }
        ((some "s").getD "") 10).1 = some 42) ∧
    ((42:Int) ≠ 0) ∧ ((7:Int) ≠ 0) ∧ ((42:Int) ≠ 7) ∧
    (spotify_callback 7 ⟨"AT", some "RT", some 3600⟩
        { db_init with verify_state := [⟨"s", 42, 900⟩] } 10
        ⟨none, none, some "c", some "s"⟩ =
      (SpotifyCbResponse.notAllowed,
       (consume_state { db_init with verify_state := [⟨"s", 42, 900⟩] }
          ((some "s").getD "") 10).2, []) ∧
     (spotify_callback 7 ⟨"AT", some "RT", some 3600⟩
        { db_init with verify_state := [⟨"s", 42, 900⟩] } 10
        ⟨none, none, some "c", some "s"⟩).2.1.spotify_tokens =
       ({ db_init with verify_state := [⟨"s", 42, 900⟩] } : DB).spotify_tokens ∧
     (spotify_callback 7 ⟨"AT", some "RT", some 3600⟩
        { db_init with verify_state := [⟨"s", 42, 900⟩] } 10
        ⟨none, none, some "c", some "s"⟩).2.1.spotify_runtime =
       ({ db_init with verify_state := [⟨"s", 42, 900⟩] } : DB).spotify_runtime) :=
  ⟨rfl, by decide, rfl, by decide, by decide, by decide,
   C10_disallowed_subject 7 ⟨"AT", some "RT", some 3600⟩
     { db_init with verify_state := [⟨"s", 42, 900⟩] } 10
     ⟨none, none, some "c", some "s"⟩ 42 rfl (by decide) (by decide) rfl
     (by decide) (by decide) (by decide)⟩

/-- Upserting an identity mapping leaves the runtime row untouched. -/
lemma upsert_mapping_runtime (db : DB) (now uid : Int) (d lg t : String) :
    (upsert_mapping db now uid d lg t).spotify_runtime = db.spotify_runtime := by
  unfold upsert_mapping
  split_ifs <;> rfl

/-- Claim C6: for every `member_count` input and every runtime state, the
presence automation controller issues no play (resume) command and either
leaves `paused_by_bot` unchanged or sets it to true — so it never flips it
from true to false.  Moreover, across the embedded HTTP surface, the Twitch
callback always preserves `paused_by_bot`, and the Spotify callback either
preserves it or renders the successful re-link page while resetting it to
false: the human-triggered re-link is the one clearing path. -/
theorem C6_never_resumes (cfg : Config) (env : AutoPauseEnv) (tenv : TwitchCbEnv)
    (allowed : Int) (tok : SpotifyTokenResponse) (db : DB) (now member_count : Int)
    (q : CallbackQuery) :
    PlayerCommand.play ∉ (handle_spotify_auto_pause cfg env db now member_count).2 ∧
    ((handle_spotify_auto_pause cfg env db now member_count).1.spotify_runtime.paused_by_bot
        = db.spotify_runtime.paused_by_bot ∨
     (handle_spotify_auto_pause cfg env db now member_count).1.spotify_runtime.paused_by_bot
        = true) ∧
    (twitch_callback tenv db now q).2.spotify_runtime.paused_by_bot
        = db.spotify_runtime.paused_by_bot ∧
    ((spotify_callback allowed tok db now q).2.1.spotify_runtime.paused_by_bot
        = db.spotify_runtime.paused_by_bot ∨
     ((spotify_callback allowed tok db now q).1 = SpotifyCbResponse.linked ∧
      (spotify_callback allowed tok db now q).2.1.spotify_runtime.paused_by_bot = false)) := by
  refine ⟨?_, ?_, ?_, ?_⟩
  · simp only [handle_spotify_auto_pause, spotify_get_runtime]
    split_ifs <;> simp
  · simp only [handle_spotify_auto_pause, spotify_get_runtime]
    split_ifs <;>
      first
        | (left; rfl)
        | (right; rfl)
        | (left; rw [get_access_token_runtime]; try rfl)
  · simp only [twitch_callback]
    split_ifs <;>
      first
        | rfl
        | rw [consume_state_snd_runtime]
        | (rw [upsert_mapping_runtime, consume_state_snd_runtime])
  · simp only [spotify_callback]
    split_ifs <;>
      first
        | (left; rfl)
        | (left; rw [consume_state_snd_runtime])
        | (right; refine ⟨rfl, rfl⟩)

end DiscordBot
